import Mathlib

/-!
# Verification of the `iinuclear` statistical core against its specification

This file embeds the parts of the `iinuclear` repository that the claims
concern.

Two parts of the development are transcribed directly from the source tree:

* the TNS-name normalisation at the top of `get_tns_coords`
  (`src/iinuclear/utils.py`, lines 63-67), modelled on Python strings viewed
  as their character sequences (`List Char`);
* the module-level name inventory of `iinuclear/utils.py` and the names that
  `iinuclear/plots.py` imports from it (`src/iinuclear/plots.py`, line 9).

The three statistical core functions (`calc_separations`, `check_nuclear`,
`rice_separation`) are imported by `plots.py` from `iinuclear.utils` but are
not defined anywhere under the available source tree; they are therefore
modelled from the specification (sections 4.1-4.3), as noted in each
definition's doc comment.  Real-valued quantities are modelled over `ℝ`
(the code's floating point is idealised as exact real arithmetic), angles
in degrees, with the declination-scaling cosine taken of the angle the
degree value denotes.
-/

open Real

namespace Iinuclear

/-! ## Part 1: transcribed from `src/iinuclear/utils.py` -/

/-- The literal "AT_" as a character sequence. -/
def atUnderscoreChars : List Char := ['A', 'T', '_']

/-- The literal "AT" as a character sequence. -/
def atChars : List Char := ['A', 'T']

/-- Transcribed from `get_tns_coords` (`src/iinuclear/utils.py`, lines 63-67):

```python
if tns_name.startswith("AT_"):
    tns_name = tns_name[3:]
elif tns_name.startswith("AT"):
    tns_name = tns_name[2:]
```

A Python `str` is modelled as its sequence of characters; `startswith` is
`List.isPrefixOf` and slicing `[k:]` is `List.drop k`. -/
def normalize_tns_name (tns_name : List Char) : List Char :=
  if atUnderscoreChars.isPrefixOf tns_name then tns_name.drop 3
  else if atChars.isPrefixOf tns_name then tns_name.drop 2
  else tns_name

/-- The module-level names defined by `src/iinuclear/utils.py` (its five
`def` statements, lines 15, 39, 133, 171, 214). -/
def utils_defined_names : List String :=
  ["get_tns_credentials", "get_tns_coords", "get_ztf_name",
   "get_ztf_coordinates", "get_coordinates"]

/-- The names that `src/iinuclear/plots.py` (line 9) imports from
`iinuclear.utils`:
`from .utils import rice_separation, check_nuclear, calc_separations`. -/
def plots_imported_names : List String :=
  ["rice_separation", "check_nuclear", "calc_separations"]

/-- Python `from M import a, b, c` semantics: the import succeeds exactly
when every requested name is among the module's defined names (otherwise an
`ImportError` is raised at import time). -/
def from_import_ok (defined requested : List String) : Bool :=
  requested.all (fun n => defined.contains n)

/-! ## Part 2: the statistical core, modelled from the specification -/

/-- Error taxonomy of spec section 7: `ValidationError` for malformed input,
`DegenerateInputError` for well-formed but mathematically degenerate input. -/
inductive CoreError
  | validation
  | degenerate
deriving DecidableEq

/-- Output of `calc_separations`: either the two signed offset-component
lists (arcseconds) or the per-detection magnitude list, per spec section 4.1. -/
inductive SepResult
  | components (dra ddec : List ℝ)
  | magnitudes (rs : List ℝ)

/-- Cosine of an angle given in degrees (inputs to the core carry degrees;
spec section 3). -/
noncomputable def cosDeg (d : ℝ) : ℝ := Real.cos (d * Real.pi / 180)

/-- Modelled from the spec: `calc_separations` is imported from
`iinuclear.utils` by `plots.py` but absent from the source tree.
Spec section 4.1 (CoordinateGeometry): given detection positions and a
reference position, produce either the signed offset components
`Δra = (ra_i - ra_ref) * cos(dec_ref) * 3600`,
`Δdec = (dec_i - dec_ref) * 3600` (arcseconds), or the per-detection
magnitudes `sqrt(Δra² + Δdec²)`, selected by the mode flag `separate`;
fail with a validation error when the lengths mismatch or `N = 0`
(non-finite inputs cannot arise over `ℝ`). -/
noncomputable def calc_separations (ras decs : List ℝ) (ra_ref dec_ref : ℝ)
    (separate : Bool) : Except CoreError SepResult :=
  if ras.length ≠ decs.length ∨ ras.length = 0 then
    Except.error CoreError.validation
  else
    let dra := ras.map (fun ra => (ra - ra_ref) * cosDeg dec_ref * 3600)
    let ddec := decs.map (fun dec => (dec - dec_ref) * 3600)
    if separate then
      Except.ok (SepResult.components dra ddec)
    else
      Except.ok (SepResult.magnitudes
        (List.zipWith (fun a b => Real.sqrt (a ^ 2 + b ^ 2)) dra ddec))

/-- Median of a list of reals (the per-axis centroid of spec section 4.2
step 1): sort, then take the middle element, or the mean of the two middle
elements when the length is even. -/
noncomputable def median (xs : List ℝ) : ℝ :=
  let s := xs.insertionSort (fun a b => a ≤ b)
  let n := xs.length
  if n % 2 = 1 then s.getD (n / 2) 0
  else (s.getD (n / 2 - 1) 0 + s.getD (n / 2) 0) / 2

/-- The RA offset component (arcseconds) between the per-axis median centroid
of the detections and the galaxy centre, per spec section 4.2 step 2. -/
noncomputable def nuclear_dra (ras : List ℝ) (ra_galaxy dec_galaxy : ℝ) : ℝ :=
  (median ras - ra_galaxy) * cosDeg dec_galaxy * 3600

/-- The Dec offset component (arcseconds) between the per-axis median
centroid of the detections and the galaxy centre, spec section 4.2 step 2. -/
noncomputable def nuclear_ddec (decs : List ℝ) (dec_galaxy : ℝ) : ℝ :=
  (median decs - dec_galaxy) * 3600

/-- `NuclearTestResult` of spec section 3. -/
structure NuclearTestResult where
  chi2 : ℝ
  p_value : ℝ
  is_nuclear : Bool

/-- Modelled from the spec: `check_nuclear` is imported from
`iinuclear.utils` by `plots.py` but absent from the source tree.
Spec section 4.2 (NuclearHypothesisTest): centroid = per-axis median;
offset via CoordinateGeometry; `chi2 = (Δra/σ)² + (Δdec/σ)²`;
`p_value = exp(-chi2/2)` (2-d.o.f. chi-square upper tail);
`is_nuclear = (p_value > 0.05)`.  Edge cases per spec: empty input is a
validation failure, `σ < 0` is a validation failure, and `σ = 0` returns
`chi2 = 0, p_value = 1, is_nuclear = True` when both offset components are
exactly zero and otherwise fails with the documented degenerate-input error
(the spec's sanctioned alternative to returning `chi2 = +∞`); no NaN can
arise over `ℝ`. -/
noncomputable def check_nuclear (ras decs : List ℝ)
    (ra_galaxy dec_galaxy sigma : ℝ) : Except CoreError NuclearTestResult :=
  if ras.length = 0 ∨ decs.length = 0 ∨ ras.length ≠ decs.length then
    Except.error CoreError.validation
  else if sigma < 0 then
    Except.error CoreError.validation
  else
    let dra := nuclear_dra ras ra_galaxy dec_galaxy
    let ddec := nuclear_ddec decs dec_galaxy
    if sigma = 0 then
      if dra = 0 ∧ ddec = 0 then
        Except.ok ⟨0, 1, true⟩
      else
        Except.error CoreError.degenerate
    else
      let chi2 := (dra / sigma) ^ 2 + (ddec / sigma) ^ 2
      let p := Real.exp (-chi2 / 2)
      Except.ok ⟨chi2, p, if 0.05 < p then true else false⟩

/-- `RiceEstimate` of spec section 3: the five reported quantities. -/
structure RiceEstimate where
  mean : ℝ
  lower_err : ℝ
  upper_err : ℝ
  snr : ℝ
  upper_limit : ℝ

/-- Sample mean of a separation sample (spec section 4.3 step 1). -/
noncomputable def sampleMean (xs : List ℝ) : ℝ := xs.sum / xs.length

/-- Sample standard deviation of a separation sample (spec section 4.3
step 1; the empirical spread). -/
noncomputable def sampleStd (xs : List ℝ) : ℝ :=
  Real.sqrt ((xs.map (fun x => (x - sampleMean xs) ^ 2)).sum / xs.length)

/-- The Rayleigh quantile at confidence `c` for noise scale `σ`
(spec section 4.3 step 3): `upper_limit = σ * sqrt(-2 * ln(1 - c))`. -/
noncomputable def rayleighLimit (sigma c : ℝ) : ℝ :=
  sigma * Real.sqrt (-2 * Real.log (1 - c))

/-- The undetected (upper-bound) regime of spec section 4.3 step 3:
report the sample mean as an upper bound, the empirical spread as the
symmetric errors, and the Rayleigh-quantile upper limit. -/
noncomputable def riceUndetected (seps : List ℝ) (sigma c : ℝ) : RiceEstimate :=
  ⟨sampleMean seps, sampleStd seps, sampleStd seps,
   sampleMean seps / sigma, rayleighLimit sigma c⟩

/-- The moment-based Rice de-biasing of the sample mean used in the detected
regime.  Spec section 9 leaves the exact de-biasing construction open
("an implementer must choose a Rice/Rayleigh-consistent construction");
this model uses the second-moment relation `E[r²] = ν² + 2σ²` of the Rice
distribution, clamped at zero. -/
noncomputable def riceDebiasedMean (m sigma : ℝ) : ℝ :=
  Real.sqrt (max (m ^ 2 - 2 * sigma ^ 2) 0)

/-- The detected (de-biased) regime of spec section 4.3 step 4: de-bias the
sample mean toward the Rice true-offset estimate, take the confidence
interval from the empirical sample spread (an option the spec grants), and
still report the same Rayleigh-quantile upper limit. -/
noncomputable def riceDetected (seps : List ℝ) (sigma c : ℝ) : RiceEstimate :=
  ⟨riceDebiasedMean (sampleMean seps) sigma, sampleStd seps, sampleStd seps,
   sampleMean seps / sigma, rayleighLimit sigma c⟩

/-- Modelled from the spec: `rice_separation` is imported from
`iinuclear.utils` by `plots.py` but absent from the source tree.
Spec section 4.3 (SeparationStatistics): validate
(non-empty sample, `σ > 0`, confidence `c ∈ (0,1)`, threshold `t > 0`),
compute `snr = mean/σ`, then select the undetected regime when `snr < t`
and the detected regime when `snr ≥ t`; both report the Rayleigh-quantile
upper limit. -/
noncomputable def rice_separation (seps : List ℝ)
    (sigma confidence_level snr_threshold : ℝ) : Except CoreError RiceEstimate :=
  if seps.length = 0 ∨ sigma ≤ 0 ∨ confidence_level ≤ 0 ∨
      1 ≤ confidence_level ∨ snr_threshold ≤ 0 then
    Except.error CoreError.validation
  else if sampleMean seps / sigma < snr_threshold then
    Except.ok (riceUndetected seps sigma confidence_level)
  else
    Except.ok (riceDetected seps sigma confidence_level)

/-- Default confidence level of `rice_separation` (spec section 6:
`confidence_level=0.95`). -/
noncomputable def default_confidence_level : ℝ := 0.95

/-- Default SNR threshold of `rice_separation` (spec section 6:
`snr_threshold=3.0`). -/
noncomputable def default_snr_threshold : ℝ := 3.0

/-- `rice_separation` called with its two defaulted parameters
(spec section 6 signature). -/
noncomputable def rice_separation_defaults (seps : List ℝ) (sigma : ℝ) :
    Except CoreError RiceEstimate :=
  rice_separation seps sigma default_confidence_level default_snr_threshold

/-! ## Helper lemmas -/

/-- The name strings the three core functions carry in the source. -/
def rice_separation_name : String := "rice_separation"

/-- The name string of `check_nuclear` in the source. -/
def check_nuclear_name : String := "check_nuclear"

/-- The name string of `calc_separations` in the source. -/
def calc_separations_name : String := "calc_separations"

/-- Magnitude of the offset between the median centroid and the galaxy
centre (the `|offset|` of spec section 8). -/
noncomputable def offsetMag (ras decs : List ℝ) (rg dg : ℝ) : ℝ :=
  Real.sqrt (nuclear_dra ras rg dg ^ 2 + nuclear_ddec decs dg ^ 2)

/-- The median of a one-element list is its element. -/
theorem median_singleton (x : ℝ) : median [x] = x := by
  simp [median, List.insertionSort, List.orderedInsert]

/-- Negation of the shape guard of `check_nuclear` for valid input. -/
theorem check_nuclear_guard (ras decs : List ℝ)
    (hne : ras.length ≠ 0) (hlen : ras.length = decs.length) :
    ¬(ras.length = 0 ∨ decs.length = 0 ∨ ras.length ≠ decs.length) := by
  push_neg
  exact ⟨hne, fun h => hne (hlen.trans h), hlen⟩

/-- On valid input with positive sigma, `check_nuclear` returns the
chi-square record built from the median-centroid offsets. -/
theorem check_nuclear_pos (ras decs : List ℝ) (rg dg sigma : ℝ)
    (hne : ras.length ≠ 0) (hlen : ras.length = decs.length)
    (hs : 0 < sigma) :
    check_nuclear ras decs rg dg sigma =
      Except.ok
        ⟨(nuclear_dra ras rg dg / sigma) ^ 2 + (nuclear_ddec decs dg / sigma) ^ 2,
         Real.exp (-((nuclear_dra ras rg dg / sigma) ^ 2 +
            (nuclear_ddec decs dg / sigma) ^ 2) / 2),
         if 0.05 < Real.exp (-((nuclear_dra ras rg dg / sigma) ^ 2 +
            (nuclear_ddec decs dg / sigma) ^ 2) / 2) then true else false⟩ := by
  unfold check_nuclear
  rw [if_neg (check_nuclear_guard ras decs hne hlen), if_neg (lt_asymm hs)]
  simp [hs.ne']

/-- On valid input, `rice_separation` returns the regime selected by the
SNR test. -/
theorem rice_separation_ok (seps : List ℝ) (sigma c t : ℝ)
    (hne : seps.length ≠ 0) (hs : 0 < sigma) (hc0 : 0 < c) (hc1 : c < 1)
    (ht : 0 < t) :
    rice_separation seps sigma c t =
      Except.ok (if sampleMean seps / sigma < t then riceUndetected seps sigma c
                 else riceDetected seps sigma c) := by
  unfold rice_separation
  rw [if_neg]
  · by_cases h : sampleMean seps / sigma < t
    · rw [if_pos h, if_pos h]
    · rw [if_neg h, if_neg h]
  · push_neg
    exact ⟨hne, hs, hc0, hc1, ht⟩

/-- Both regimes report the Rayleigh-quantile upper limit. -/
theorem rice_regimes_upper_limit (seps : List ℝ) (sigma c : ℝ) :
    (riceUndetected seps sigma c).upper_limit = rayleighLimit sigma c ∧
    (riceDetected seps sigma c).upper_limit = rayleighLimit sigma c :=
  ⟨rfl, rfl⟩

/-- The Rayleigh quantile is strictly increasing in the confidence level
for a fixed positive scale. -/
theorem rayleighLimit_strictMono (sigma c1 c2 : ℝ) (hs : 0 < sigma)
    (h0 : 0 < c1) (h12 : c1 < c2) (h2 : c2 < 1) :
    rayleighLimit sigma c1 < rayleighLimit sigma c2 := by
  unfold rayleighLimit
  have hpos2 : (0 : ℝ) < 1 - c2 := by linarith
  have hlt : Real.log (1 - c2) < Real.log (1 - c1) :=
    Real.log_lt_log hpos2 (by linarith)
  have hnonpos : Real.log (1 - c1) ≤ 0 :=
    Real.log_nonpos (by linarith) (by linarith)
  have hsqrt : Real.sqrt (-2 * Real.log (1 - c1)) <
      Real.sqrt (-2 * Real.log (1 - c2)) :=
    Real.sqrt_lt_sqrt (by linarith) (by linarith)
  exact mul_lt_mul_of_pos_left hsqrt hs

/-! ## Claim theorems -/

/-- Claim C9: `iinuclear/plots.py` (line 9) imports `rice_separation`,
`check_nuclear` and `calc_separations` from `iinuclear.utils`, but
`iinuclear/utils.py` defines none of these three names, so the
`from`-import executed when `iinuclear.plots` is loaded always fails with
an `ImportError`: the statistical core described by the spec is absent
from this source tree. -/
theorem plots_import_always_fails :
    from_import_ok utils_defined_names plots_imported_names = false ∧
    utils_defined_names.contains rice_separation_name = false ∧
    utils_defined_names.contains check_nuclear_name = false ∧
    utils_defined_names.contains calc_separations_name = false := by
  decide

/-- Claim C10: `get_tns_coords` queries TNS with the input name stripped of
a leading "AT_" (3 characters removed) or, failing that, of a leading "AT"
(2 characters removed); a name with any other leading characters is passed
through unchanged, and any name beginning with the letters "AT" loses
them, whether or not it is an AT-prefixed IAU designation. -/
theorem normalize_tns_name_cases (s : List Char) :
    (atUnderscoreChars.isPrefixOf s = true →
      normalize_tns_name s = s.drop 3) ∧
    (atUnderscoreChars.isPrefixOf s = false → atChars.isPrefixOf s = true →
      normalize_tns_name s = s.drop 2) ∧
    (atUnderscoreChars.isPrefixOf s = false → atChars.isPrefixOf s = false →
      normalize_tns_name s = s) ∧
    (atChars.isPrefixOf s = true →
      normalize_tns_name s = s.drop 3 ∨ normalize_tns_name s = s.drop 2) := by
  refine ⟨fun h1 => ?_, fun h1 h2 => ?_, fun h1 h2 => ?_, fun h2 => ?_⟩
  · simp [normalize_tns_name, h1]
  · simp [normalize_tns_name, h1, h2]
  · simp [normalize_tns_name, h1, h2]
  · by_cases h1 : atUnderscoreChars.isPrefixOf s = true
    · exact Or.inl (by simp [normalize_tns_name, h1])
    · exact Or.inr (by
        simp at h1
        simp [normalize_tns_name, h1, h2])

/-- Witness for claim C10: the name "AT2018" (as a character sequence) does
not start with "AT_", starts with "AT", and is normalised to "2018". -/
theorem normalize_tns_name_cases_witness :
    atUnderscoreChars.isPrefixOf ['A', 'T', '2', '0', '1', '8'] = false ∧
    atChars.isPrefixOf ['A', 'T', '2', '0', '1', '8'] = true ∧
    normalize_tns_name ['A', 'T', '2', '0', '1', '8'] = ['2', '0', '1', '8'] := by
  refine ⟨by decide, by decide, ?_⟩
  have h := (normalize_tns_name_cases ['A', 'T', '2', '0', '1', '8']).2.1
    (by decide) (by decide)
  simpa using h

/-- Claim C8: the three core functions are deterministic and pure.  In this
embedding each is a total mathematical function of its arguments alone (no
I/O, no ambient randomness, no mutable state in the model), so any two
calls with identical inputs return identical outputs. -/
theorem core_functions_deterministic :
    (∀ (ras decs : List ℝ) (ra_ref dec_ref : ℝ) (separate : Bool),
      calc_separations ras decs ra_ref dec_ref separate =
        calc_separations ras decs ra_ref dec_ref separate) ∧
    (∀ (ras decs : List ℝ) (rg dg sigma : ℝ),
      check_nuclear ras decs rg dg sigma =
        check_nuclear ras decs rg dg sigma) ∧
    (∀ (seps : List ℝ) (sigma c t : ℝ),
      rice_separation seps sigma c t = rice_separation seps sigma c t) :=
  ⟨fun _ _ _ _ _ => rfl, fun _ _ _ _ _ => rfl, fun _ _ _ _ => rfl⟩

/-- Claim C1: with the component flag set, `calc_separations` returns, for
every detection `i`, `Δra_i = (ra_i - ra_ref) * cos(dec_ref) * 3600` and
`Δdec_i = (dec_i - dec_ref) * 3600` in arcseconds. -/
theorem calc_separations_components (ras decs : List ℝ) (ra_ref dec_ref : ℝ)
    (hlen : ras.length = decs.length) (hne : ras.length ≠ 0) :
    calc_separations ras decs ra_ref dec_ref true =
      Except.ok (SepResult.components
        (ras.map (fun ra => (ra - ra_ref) * cosDeg dec_ref * 3600))
        (decs.map (fun dec => (dec - dec_ref) * 3600))) := by
  have hd : decs ≠ [] := by
    intro h
    rw [h] at hlen
    simp at hlen
    exact hne (by simp [hlen])
  simp [calc_separations, hlen, hne, hd]

/-- Witness for claim C1: a single detection at (100.01°, 0.0°) relative to
reference (100.0°, 0.0°) yields Δra = 36″ and Δdec = 0″ exactly. -/
theorem calc_separations_components_witness :
    calc_separations [(100.01 : ℝ)] [(0 : ℝ)] 100 0 true =
      Except.ok (SepResult.components [(36 : ℝ)] [(0 : ℝ)]) := by
  have h := calc_separations_components [(100.01 : ℝ)] [(0 : ℝ)] 100 0
    (by simp) (by simp)
  rw [h]
  norm_num [cosDeg]

/-- The boolean verdict stored by `check_nuclear` decodes to the strict
p-value threshold comparison, in both polarities. -/
theorem ite_nuclear_iff (p : ℝ) :
    ((if 0.05 < p then true else false) = true ↔ 0.05 < p) ∧
    ((if 0.05 < p then true else false) = false ↔ p ≤ 0.05) := by
  by_cases h : (0.05 : ℝ) < p
  · simp [h]
  · simp [h, not_lt.mp h]

/-- Claim C2: for every non-empty detection set, galaxy centre and positive
sigma, `check_nuclear` takes the per-axis median of the detections as the
transient centroid, forms `chi2 = (Δra/σ)² + (Δdec/σ)²` from that
centroid's offset to the galaxy centre, returns `p_value = exp(-chi2/2)`
(the 2-d.o.f. chi-square upper tail), and returns
`is_nuclear = (p_value > 0.05)`. -/
theorem check_nuclear_spec (ras decs : List ℝ) (rg dg sigma : ℝ)
    (hne : ras.length ≠ 0) (hlen : ras.length = decs.length)
    (hs : 0 < sigma) :
    ∃ r : NuclearTestResult,
      check_nuclear ras decs rg dg sigma = Except.ok r ∧
      r.chi2 = ((median ras - rg) * cosDeg dg * 3600 / sigma) ^ 2 +
        ((median decs - dg) * 3600 / sigma) ^ 2 ∧
      r.p_value = Real.exp (-r.chi2 / 2) ∧
      (r.is_nuclear = true ↔ 0.05 < r.p_value) := by
  refine ⟨_, check_nuclear_pos ras decs rg dg sigma hne hlen hs, rfl, rfl, ?_⟩
  exact (ite_nuclear_iff _).1

/-- Witness for claim C2: a single detection coincident with the galaxy
centre at σ = 1. -/
theorem check_nuclear_spec_witness :
    ([(100 : ℝ)].length ≠ 0) ∧ ([(100 : ℝ)].length = [(0 : ℝ)].length) ∧
    ((0 : ℝ) < 1) ∧
    ∃ r : NuclearTestResult,
      check_nuclear [(100 : ℝ)] [(0 : ℝ)] 100 0 1 = Except.ok r ∧
      r.chi2 = ((median [(100 : ℝ)] - 100) * cosDeg 0 * 3600 / 1) ^ 2 +
        ((median [(0 : ℝ)] - 0) * 3600 / 1) ^ 2 ∧
      r.p_value = Real.exp (-r.chi2 / 2) ∧
      (r.is_nuclear = true ↔ 0.05 < r.p_value) :=
  ⟨by simp, by simp, by norm_num,
   check_nuclear_spec [(100 : ℝ)] [(0 : ℝ)] 100 0 1 (by simp) (by simp)
     (by norm_num)⟩

/-- Claim C7: with σ = 0 `check_nuclear` is deterministic and NaN-free
(no NaN exists over ℝ): a nonzero centroid offset yields the documented
degenerate-input error — the validation-error option the spec grants, so in
particular never a nuclear verdict — while an exactly-zero offset yields
`chi2 = 0`, `p_value = 1`, `is_nuclear = true`. -/
theorem check_nuclear_sigma_zero (ras decs : List ℝ) (rg dg : ℝ)
    (hne : ras.length ≠ 0) (hlen : ras.length = decs.length) :
    (¬(nuclear_dra ras rg dg = 0 ∧ nuclear_ddec decs dg = 0) →
      check_nuclear ras decs rg dg 0 = Except.error CoreError.degenerate) ∧
    ((nuclear_dra ras rg dg = 0 ∧ nuclear_ddec decs dg = 0) →
      check_nuclear ras decs rg dg 0 = Except.ok ⟨0, 1, true⟩) := by
  constructor
  · intro h
    unfold check_nuclear
    rw [if_neg (check_nuclear_guard ras decs hne hlen), if_neg (lt_irrefl 0)]
    simp [h]
  · intro h
    unfold check_nuclear
    rw [if_neg (check_nuclear_guard ras decs hne hlen), if_neg (lt_irrefl 0)]
    simp [h]

/-- Witness for claim C7: a single detection 0.5° away from the galaxy
centre errors out at σ = 0, and a detection exactly at the galaxy centre
returns `chi2 = 0, p_value = 1, is_nuclear = true` at σ = 0. -/
theorem check_nuclear_sigma_zero_witness :
    check_nuclear [(100 : ℝ)] [(0 : ℝ)] 100.5 0 0 =
      Except.error CoreError.degenerate ∧
    check_nuclear [(100 : ℝ)] [(0 : ℝ)] 100 0 0 =
      Except.ok ⟨0, 1, true⟩ := by
  constructor
  · exact (check_nuclear_sigma_zero [(100 : ℝ)] [(0 : ℝ)] 100.5 0
      (by simp) (by simp)).1
      (by norm_num [nuclear_dra, nuclear_ddec, median_singleton, cosDeg])
  · exact (check_nuclear_sigma_zero [(100 : ℝ)] [(0 : ℝ)] 100 0
      (by simp) (by simp)).2
      (by norm_num [nuclear_dra, nuclear_ddec, median_singleton, cosDeg])

/-- Claim C3: for a fixed detection set and galaxy centre, across any two
positive sigma values the `check_nuclear` outputs satisfy: `chi2` is
monotonically non-decreasing in `|offset|/σ`, `p_value` is monotonically
non-increasing in `chi2`, and `is_nuclear` is `true` exactly when
`p_value > 0.05` and `false` exactly when `p_value ≤ 0.05` — so it flips
from `true` to `false` exactly as `p_value` crosses 0.05. -/
theorem check_nuclear_monotone (ras decs : List ℝ) (rg dg sigma1 sigma2 : ℝ)
    (hne : ras.length ≠ 0) (hlen : ras.length = decs.length)
    (h1 : 0 < sigma1) (h2 : 0 < sigma2)
    (r1 r2 : NuclearTestResult)
    (e1 : check_nuclear ras decs rg dg sigma1 = Except.ok r1)
    (e2 : check_nuclear ras decs rg dg sigma2 = Except.ok r2) :
    (offsetMag ras decs rg dg / sigma1 ≤ offsetMag ras decs rg dg / sigma2 →
      r1.chi2 ≤ r2.chi2) ∧
    (r1.chi2 ≤ r2.chi2 → r2.p_value ≤ r1.p_value) ∧
    (r1.is_nuclear = true ↔ 0.05 < r1.p_value) ∧
    (r1.is_nuclear = false ↔ r1.p_value ≤ 0.05) := by
  rw [check_nuclear_pos ras decs rg dg sigma1 hne hlen h1] at e1
  rw [check_nuclear_pos ras decs rg dg sigma2 hne hlen h2] at e2
  injection e1 with e1
  injection e2 with e2
  have hS : (0 : ℝ) ≤ nuclear_dra ras rg dg ^ 2 + nuclear_ddec decs dg ^ 2 := by
    positivity
  have key : ∀ s : ℝ,
      (nuclear_dra ras rg dg / s) ^ 2 + (nuclear_ddec decs dg / s) ^ 2 =
        (offsetMag ras decs rg dg / s) ^ 2 := by
    intro s
    unfold offsetMag
    rw [div_pow, div_pow, div_pow, Real.sq_sqrt hS, add_div]
  have hchi1 : r1.chi2 =
      (nuclear_dra ras rg dg / sigma1) ^ 2 +
        (nuclear_ddec decs dg / sigma1) ^ 2 := by
    rw [← e1]
  have hchi2 : r2.chi2 =
      (nuclear_dra ras rg dg / sigma2) ^ 2 +
        (nuclear_ddec decs dg / sigma2) ^ 2 := by
    rw [← e2]
  have hp1 : r1.p_value = Real.exp (-r1.chi2 / 2) := by
    rw [← e1]
  have hp2 : r2.p_value = Real.exp (-r2.chi2 / 2) := by
    rw [← e2]
  have hb1 : r1.is_nuclear =
      (if 0.05 < r1.p_value then true else false) := by
    rw [← e1]
  refine ⟨?_, ?_, ?_, ?_⟩
  · intro hm
    rw [hchi1, hchi2, key sigma1, key sigma2]
    have h0 : 0 ≤ offsetMag ras decs rg dg / sigma1 :=
      div_nonneg (Real.sqrt_nonneg _) h1.le
    exact pow_le_pow_left₀ h0 hm 2
  · intro hc
    rw [hp1, hp2]
    exact Real.exp_le_exp.mpr (by linarith)
  · rw [hb1]
    exact (ite_nuclear_iff r1.p_value).1
  · rw [hb1]
    exact (ite_nuclear_iff r1.p_value).2

/-- Witness for claim C3 at a zero-offset detection set with σ = 2 and
σ = 1. -/
theorem check_nuclear_monotone_witness :
    check_nuclear [(100 : ℝ)] [(0 : ℝ)] 100 0 2 = Except.ok ⟨0, 1, true⟩ ∧
    check_nuclear [(100 : ℝ)] [(0 : ℝ)] 100 0 1 = Except.ok ⟨0, 1, true⟩ ∧
    ((offsetMag [(100 : ℝ)] [(0 : ℝ)] 100 0 / 2 ≤
        offsetMag [(100 : ℝ)] [(0 : ℝ)] 100 0 / 1 → (0 : ℝ) ≤ 0) ∧
     ((0 : ℝ) ≤ 0 → (1 : ℝ) ≤ 1) ∧
     (true = true ↔ (0.05 : ℝ) < 1) ∧
     (true = false ↔ (1 : ℝ) ≤ 0.05)) := by
  have e1 : check_nuclear [(100 : ℝ)] [(0 : ℝ)] 100 0 2 =
      Except.ok ⟨0, 1, true⟩ := by
    rw [check_nuclear_pos [(100 : ℝ)] [(0 : ℝ)] 100 0 2 (by simp) (by simp)
      (by norm_num)]
    norm_num [nuclear_dra, nuclear_ddec, median_singleton, cosDeg,
      Real.exp_zero]
  have e2 : check_nuclear [(100 : ℝ)] [(0 : ℝ)] 100 0 1 =
      Except.ok ⟨0, 1, true⟩ := by
    rw [check_nuclear_pos [(100 : ℝ)] [(0 : ℝ)] 100 0 1 (by simp) (by simp)
      (by norm_num)]
    norm_num [nuclear_dra, nuclear_ddec, median_singleton, cosDeg,
      Real.exp_zero]
  exact ⟨e1, e2, check_nuclear_monotone [(100 : ℝ)] [(0 : ℝ)] 100 0 2 1
    (by simp) (by simp) (by norm_num) (by norm_num) ⟨0, 1, true⟩
    ⟨0, 1, true⟩ e1 e2⟩

/-- Claim C4: on any valid input, the `upper_limit` that `rice_separation`
returns equals the Rayleigh quantile `σ * sqrt(-2 * ln(1 - c))`, and for
fixed σ it is strictly increasing in the confidence level. -/
theorem rice_separation_upper_limit (seps : List ℝ) (sigma c1 c2 t : ℝ)
    (hne : seps.length ≠ 0) (hs : 0 < sigma)
    (hc0 : 0 < c1) (h12 : c1 < c2) (hc1 : c2 < 1) (ht : 0 < t)
    (r1 r2 : RiceEstimate)
    (e1 : rice_separation seps sigma c1 t = Except.ok r1)
    (e2 : rice_separation seps sigma c2 t = Except.ok r2) :
    r1.upper_limit = sigma * Real.sqrt (-2 * Real.log (1 - c1)) ∧
    r2.upper_limit = sigma * Real.sqrt (-2 * Real.log (1 - c2)) ∧
    r1.upper_limit < r2.upper_limit := by
  rw [rice_separation_ok seps sigma c1 t hne hs hc0 (lt_trans h12 hc1) ht] at e1
  rw [rice_separation_ok seps sigma c2 t hne hs (lt_trans hc0 h12) hc1 ht] at e2
  injection e1 with e1
  injection e2 with e2
  have hu1 : r1.upper_limit = rayleighLimit sigma c1 := by
    rw [← e1]
    by_cases h : sampleMean seps / sigma < t
    · rw [if_pos h]
      rfl
    · rw [if_neg h]
      rfl
  have hu2 : r2.upper_limit = rayleighLimit sigma c2 := by
    rw [← e2]
    by_cases h : sampleMean seps / sigma < t
    · rw [if_pos h]
      rfl
    · rw [if_neg h]
      rfl
  refine ⟨hu1, hu2, ?_⟩
  rw [hu1, hu2]
  exact rayleighLimit_strictMono sigma c1 c2 hs hc0 h12 hc1

/-- Witness for claim C4 at sample `[1]`, σ = 1, confidence levels 1/2 and
3/4, threshold 3 (SNR = 1, so both calls land in the undetected regime). -/
theorem rice_separation_upper_limit_witness :
    rice_separation [(1 : ℝ)] 1 (1 / 2) 3 =
      Except.ok (riceUndetected [(1 : ℝ)] 1 (1 / 2)) ∧
    rice_separation [(1 : ℝ)] 1 (3 / 4) 3 =
      Except.ok (riceUndetected [(1 : ℝ)] 1 (3 / 4)) ∧
    (riceUndetected [(1 : ℝ)] 1 (1 / 2)).upper_limit =
      1 * Real.sqrt (-2 * Real.log (1 - 1 / 2)) ∧
    (riceUndetected [(1 : ℝ)] 1 (3 / 4)).upper_limit =
      1 * Real.sqrt (-2 * Real.log (1 - 3 / 4)) ∧
    (riceUndetected [(1 : ℝ)] 1 (1 / 2)).upper_limit <
      (riceUndetected [(1 : ℝ)] 1 (3 / 4)).upper_limit := by
  have e1 : rice_separation [(1 : ℝ)] 1 (1 / 2) 3 =
      Except.ok (riceUndetected [(1 : ℝ)] 1 (1 / 2)) := by
    rw [rice_separation_ok [(1 : ℝ)] 1 (1 / 2) 3 (by simp) (by norm_num)
      (by norm_num) (by norm_num) (by norm_num)]
    rw [if_pos (by norm_num [sampleMean])]
  have e2 : rice_separation [(1 : ℝ)] 1 (3 / 4) 3 =
      Except.ok (riceUndetected [(1 : ℝ)] 1 (3 / 4)) := by
    rw [rice_separation_ok [(1 : ℝ)] 1 (3 / 4) 3 (by simp) (by norm_num)
      (by norm_num) (by norm_num) (by norm_num)]
    rw [if_pos (by norm_num [sampleMean])]
  have h := rice_separation_upper_limit [(1 : ℝ)] 1 (1 / 2) (3 / 4) 3
    (by simp) (by norm_num) (by norm_num) (by norm_num) (by norm_num)
    (by norm_num) (riceUndetected [(1 : ℝ)] 1 (1 / 2))
    (riceUndetected [(1 : ℝ)] 1 (3 / 4)) e1 e2
  exact ⟨e1, e2, h.1, h.2.1, h.2.2⟩

/-- Claim C5: `rice_separation` takes `(separations, sigma,
confidence_level, snr_threshold)` — the latter two defaulting to 0.95 and
3.0 — and returns the five-field estimate `(mean, lower_err, upper_err,
snr, upper_limit)` whose `snr` is the sample mean of the separations over
sigma; `snr < snr_threshold` selects the undetected (upper-bound) regime
and `snr ≥ snr_threshold` the detected (de-biased) regime. -/
theorem rice_separation_interface (seps : List ℝ) (sigma c t : ℝ)
    (hne : seps.length ≠ 0) (hs : 0 < sigma) (hc0 : 0 < c) (hc1 : c < 1)
    (ht : 0 < t) :
    (∃ r : RiceEstimate, rice_separation seps sigma c t = Except.ok r ∧
      r.snr = sampleMean seps / sigma) ∧
    (sampleMean seps / sigma < t →
      rice_separation seps sigma c t = Except.ok (riceUndetected seps sigma c)) ∧
    (t ≤ sampleMean seps / sigma →
      rice_separation seps sigma c t = Except.ok (riceDetected seps sigma c)) ∧
    rice_separation_defaults seps sigma =
      rice_separation seps sigma 0.95 3.0 := by
  have hok := rice_separation_ok seps sigma c t hne hs hc0 hc1 ht
  refine ⟨?_, ?_, ?_, rfl⟩
  · refine ⟨_, hok, ?_⟩
    by_cases h : sampleMean seps / sigma < t
    · rw [if_pos h]
      rfl
    · rw [if_neg h]
      rfl
  · intro h
    rw [hok, if_pos h]
  · intro h
    rw [hok, if_neg (not_lt.mpr h)]

/-- Witness for claim C5 at sample `[1]`, σ = 1, c = 1/2, t = 3. -/
theorem rice_separation_interface_witness :
    (∃ r : RiceEstimate, rice_separation [(1 : ℝ)] 1 (1 / 2) 3 =
        Except.ok r ∧ r.snr = sampleMean [(1 : ℝ)] / 1) ∧
    (sampleMean [(1 : ℝ)] / 1 < 3 →
      rice_separation [(1 : ℝ)] 1 (1 / 2) 3 =
        Except.ok (riceUndetected [(1 : ℝ)] 1 (1 / 2))) ∧
    ((3 : ℝ) ≤ sampleMean [(1 : ℝ)] / 1 →
      rice_separation [(1 : ℝ)] 1 (1 / 2) 3 =
        Except.ok (riceDetected [(1 : ℝ)] 1 (1 / 2))) ∧
    rice_separation_defaults [(1 : ℝ)] 1 =
      rice_separation [(1 : ℝ)] 1 0.95 3.0 :=
  rice_separation_interface [(1 : ℝ)] 1 (1 / 2) 3 (by simp) (by norm_num)
    (by norm_num) (by norm_num) (by norm_num)

/-- Claim C6: `rice_separation` fails with a validation error — rather than
returning an estimate — whenever the separation sample is empty, σ ≤ 0, the
confidence level lies outside (0,1), or the SNR threshold is ≤ 0. -/
theorem rice_separation_validation (seps : List ℝ) (sigma c t : ℝ) :
    (seps.length = 0 →
      rice_separation seps sigma c t = Except.error CoreError.validation) ∧
    (sigma ≤ 0 →
      rice_separation seps sigma c t = Except.error CoreError.validation) ∧
    (c ≤ 0 ∨ 1 ≤ c →
      rice_separation seps sigma c t = Except.error CoreError.validation) ∧
    (t ≤ 0 →
      rice_separation seps sigma c t = Except.error CoreError.validation) := by
  refine ⟨fun h => ?_, fun h => ?_, fun h => ?_, fun h => ?_⟩
  · simp [rice_separation, h]
  · simp [rice_separation, h]
  · rcases h with h | h
    · simp [rice_separation, h]
    · simp [rice_separation, h]
  · simp [rice_separation, h]

/-- Witness for claim C6: the four failure modes at concrete inputs — empty
sample, σ = -1, confidence 2, threshold 0. -/
theorem rice_separation_validation_witness :
    rice_separation ([] : List ℝ) 1 (1 / 2) 3 =
      Except.error CoreError.validation ∧
    rice_separation [(1 : ℝ)] (-1) (1 / 2) 3 =
      Except.error CoreError.validation ∧
    rice_separation [(1 : ℝ)] 1 2 3 = Except.error CoreError.validation ∧
    rice_separation [(1 : ℝ)] 1 (1 / 2) 0 =
      Except.error CoreError.validation :=
  ⟨(rice_separation_validation ([] : List ℝ) 1 (1 / 2) 3).1 rfl,
   (rice_separation_validation [(1 : ℝ)] (-1) (1 / 2) 3).2.1 (by norm_num),
   (rice_separation_validation [(1 : ℝ)] 1 2 3).2.2.1 (Or.inr (by norm_num)),
   (rice_separation_validation [(1 : ℝ)] 1 (1 / 2) 0).2.2.2 le_rfl⟩

end Iinuclear
